import Mathlib

/-!
Verification development for the asset QR-code registry server (src/server.js).

The server keeps a mutable `assets` Map (registry of asset records) and a single
`sessions` Map holding both administrator sessions and per-asset verification
sessions.  Requests carry credentials in the Cookie header; the server extracts
tokens with ad-hoc `split` calls.  This file shallowly embeds the registry, the
session table, the cookie parsing, and every route handler the claims touch, and
proves or refutes the claimed properties.
-/

/-- Modelled from the spec: the Credential Store hash/verify contract of section
4.1.  The bcrypt library is an external dependency (its code is not part of this
repository), so a digest is modelled abstractly: a well-formed digest records the
per-call salt and the secret it was derived from; `malformed` stands for any
string that is not a valid digest. -/
inductive Digest where
  | hashed (salt : Nat) (secret : String)
  | malformed (raw : String)
deriving DecidableEq

/-- Modelled from the spec: `hash(plaintext)` with a per-call random salt
(bcrypt.hash(pw, 10) in the source; the salt is passed explicitly here). -/
def bhash (salt : Nat) (secret : String) : Digest :=
  Digest.hashed salt secret

/-- Modelled from the spec: `verify(plaintext, digest)`; total, returns false on
a malformed digest instead of throwing. -/
def bverify (plaintext : String) : Digest → Bool
  | Digest.hashed _ s => plaintext == s
  | Digest.malformed _ => false

/-- Modelled from the bcrypt library interface used at src/server.js line 1057:
`bcrypt.compare(data, hash)` errors (the promise rejects) when the data argument
is missing (undefined), and otherwise resolves to the boolean match. -/
def bcryptCompare (data : Option String) (digest : Digest) : Except Unit Bool :=
  match data with
  | none => Except.error ()
  | some p => Except.ok (bverify p digest)

/-- One scan audit entry, as pushed at src/server.js line 1153. -/
structure ScanEvent where
  timestamp : String
  device : String
deriving DecidableEq

/-- One stored asset record, as constructed at src/server.js lines 673-681. -/
structure AssetRecord where
  id : String
  name : String
  location : String
  department : String
  desktopSetupDate : String
  assetPassword : Digest
  scanHistory : List ScanEvent
deriving DecidableEq

/-- The two payload shapes stored in the single `sessions` Map:
`{ authenticated: true }` (src/server.js line 237) and
`{ assetId, verified: true }` (src/server.js line 1060). -/
inductive SessionPayload where
  | adminAuthenticated
  | assetVerified (assetId : String)
deriving DecidableEq

/-- Reading the `assetId` property of a session payload; the admin payload has
no such field (undefined in JS). -/
def sessionAssetId : SessionPayload → Option String
  | SessionPayload.adminAuthenticated => none
  | SessionPayload.assetVerified a => some a

/-- JS Map.get: first (and only) binding of the key. -/
def mapGet {α : Type} : List (String × α) → String → Option α
  | [], _ => none
  | (k', v) :: rest, k => if k' == k then some v else mapGet rest k

/-- JS Map.has. -/
def mapHas {α : Type} : List (String × α) → String → Bool
  | [], _ => false
  | (k', _) :: rest, k => k' == k || mapHas rest k

/-- JS Map.set: replaces in place when the key is present, otherwise appends
(insertion order preserved). -/
def mapSet {α : Type} : List (String × α) → String → α → List (String × α)
  | [], k, v => [(k, v)]
  | (k', v') :: rest, k, v =>
    if k' == k then (k, v) :: rest else (k', v') :: mapSet rest k v

/-- JS Map.delete: removes the binding of the key. -/
def mapDelete {α : Type} : List (String × α) → String → List (String × α)
  | [], _ => []
  | (k', v') :: rest, k => if k' == k then rest else (k', v') :: mapDelete rest k

/-- Whole-server mutable state: the asset registry Map and the session Map. -/
structure ServerState where
  assets : List (String × AssetRecord)
  sessions : List (String × SessionPayload)
deriving DecidableEq

/-- Does `sep` occur at the head of `s`? -/
def leadMatches : List Char → List Char → Bool
  | [], _ => true
  | _ :: _, [] => false
  | a :: as, b :: bs => a == b && leadMatches as bs

/-- First occurrence of `sep` in `s`: the part before it and the part after it
(none when `sep` does not occur). -/
def splitFirst (sep : List Char) : List Char → Option (List Char × List Char)
  | [] => none
  | c :: cs =>
    if leadMatches sep (c :: cs) then
      some ([], List.drop sep.length (c :: cs))
    else
      match splitFirst sep cs with
      | none => none
      | some (pre, post) => some (c :: pre, post)

/-- Element 1 of the JS `s.split(sep)` array: the text between the first and the
second occurrence of `sep` (undefined when `sep` does not occur). -/
def jsSplitIndex1 (sep s : List Char) : Option (List Char) :=
  match splitFirst sep s with
  | none => none
  | some (_, rest) =>
    match splitFirst sep rest with
    | none => some rest
    | some (pre, _) => some pre

/-- The token-extraction idiom of src/server.js lines 59, 265 and 1119:
`cookie.split(name)[1]?.split(';')[0]`, with a missing Cookie header giving
null. -/
def cookieToken (cookieName : String) (cookie : Option String) : Option String :=
  match cookie with
  | none => none
  | some c =>
    match jsSplitIndex1 cookieName.toList c.toList with
    | none => none
    | some part =>
      match splitFirst [';'] part with
      | none => some (String.mk part)
      | some (pre, _) => some (String.mk pre)

/-- The isAuthenticated check of src/server.js lines 58-62: extract the token
after the substring "sessionId=" and test membership in the shared sessions
Map (an empty token is falsy in JS and fails the check). -/
def isAuthenticated (sessions : List (String × SessionPayload))
    (cookie : Option String) : Bool :=
  match cookieToken "sessionId=" cookie with
  | none => false
  | some t => !(t == "") && mapHas sessions t

/-- The isVerified check of src/server.js lines 1119-1120: extract the token
after "assetSessionId=", look it up in the same sessions Map, and compare its
assetId property with the requested asset id. -/
def isVerifiedFor (sessions : List (String × SessionPayload))
    (cookie : Option String) (assetId : String) : Bool :=
  match cookieToken "assetSessionId=" cookie with
  | none => false
  | some t =>
    !(t == "") &&
      (match mapGet sessions t with
       | none => false
       | some payload => sessionAssetId payload == some assetId)

/-- JS truthiness of an optional string field: present and nonempty. -/
def jsTruthy (o : Option String) : Bool :=
  match o with
  | none => false
  | some s => !(s == "")

/-- JS `o || dflt` on an optional string: the default replaces both a missing
field and an empty string. -/
def jsOr (o : Option String) (dflt : String) : String :=
  match o with
  | none => dflt
  | some s => if s == "" then dflt else s

/-- Responses of the routes the claims are about.  HTML rendering is abstracted
to the data that decides the page; QR encoding is abstracted to the encoded
text, per the spec's external-collaborator boundary. -/
inductive Response where
  | notFoundPage (id : String)
  | challengePage (assetId : String)
  | detailPage (a : AssetRecord)
  | redirectTo (path : String)
  | conflictPage (name : String)
  | invalidInputPage
  | createdPage (name : String)
  | loginFailedPage
  | passwordUpdatedPage (assetId : String)
  | accessDeniedPage (assetId : String)
  | listPage (records : List AssetRecord)
  | qrPage (encoded : String)
  | qrImage (encoded : String)
  | qrAllPage (encoded : List String)
  | apiJson (a : AssetRecord)
  | apiNotFound (id : String)
  | unhandledRejection
deriving DecidableEq

/-- GET /asset/:id request data: path parameter, `scan` query parameter, Cookie
header, User-Agent header, and the clock reading taken during the request. -/
structure AssetViewRequest where
  assetId : String
  scanQuery : Option String
  cookie : Option String
  userAgent : Option String
  now : String
deriving DecidableEq

/-- The scan event built at src/server.js lines 1151-1153 (`||` gives the
default device string for a missing or empty User-Agent). -/
def mkScanEvent (req : AssetViewRequest) : ScanEvent :=
  { timestamp := req.now, device := jsOr req.userAgent "Unknown Device" }

/-- Appending one scan event to a record's history (the push at line 1153). -/
def recordScan (a : AssetRecord) (e : ScanEvent) : AssetRecord :=
  { a with scanHistory := a.scanHistory ++ [e] }

/-- GET /asset/:id (src/server.js lines 1091-1270): 404 for an unknown id; a
password challenge when the scan flag is set and the caller is neither
session-authenticated nor asset-verified for this id; otherwise the detail
page, with one scan event appended exactly when the scan flag is set. -/
def assetDetailHandler (st : ServerState) (req : AssetViewRequest) :
    ServerState × Response :=
  match mapGet st.assets req.assetId with
  | none => (st, Response.notFoundPage req.assetId)
  | some asset =>
    if req.scanQuery == some "true" &&
        !(isAuthenticated st.sessions req.cookie) &&
        !(isVerifiedFor st.sessions req.cookie req.assetId) then
      (st, Response.challengePage req.assetId)
    else if req.scanQuery == some "true" then
      ({ st with assets := mapSet st.assets req.assetId (recordScan asset (mkScanEvent req)) },
       Response.detailPage (recordScan asset (mkScanEvent req)))
    else
      (st, Response.detailPage asset)

/-- POST /asset/verify/:id (src/server.js lines 1031-1088): 404 for an unknown
id; otherwise the submitted password is passed straight to bcrypt.compare with
no missing-field check — a missing password makes the library reject and the
async handler produce no response at all.  On a match a fresh asset session is
stored and the client is redirected to the detail view with the scan flag; on a
mismatch a 401 re-challenge is rendered.  `newToken` is the generateSessionId
value drawn during the request. -/
def verifyHandler (st : ServerState) (assetId : String)
    (password : Option String) (newToken : String) : ServerState × Response :=
  match mapGet st.assets assetId with
  | none => (st, Response.notFoundPage assetId)
  | some asset =>
    match bcryptCompare password asset.assetPassword with
    | Except.error _ => (st, Response.unhandledRejection)
    | Except.ok true =>
      ({ st with sessions := mapSet st.sessions newToken (SessionPayload.assetVerified assetId) },
       Response.redirectTo ("/asset/" ++ assetId ++ "?scan=true"))
    | Except.ok false => (st, Response.accessDeniedPage assetId)

/-- GET /delete/:id (src/server.js lines 895-953): redirect to the login
surface unless isAuthenticated; 404 for an unknown id; otherwise remove the
record and redirect to /list. -/
def deleteHandler (st : ServerState) (assetId : String)
    (cookie : Option String) : ServerState × Response :=
  if !(isAuthenticated st.sessions cookie) then
    (st, Response.redirectTo "/")
  else
    match mapGet st.assets assetId with
    | none => (st, Response.notFoundPage assetId)
    | some _ => ({ st with assets := mapDelete st.assets assetId },
                 Response.redirectTo "/list")

/-- GET /list (src/server.js lines 375-452): redirect unless isAuthenticated,
otherwise render every stored record. -/
def listHandler (st : ServerState) (cookie : Option String) :
    ServerState × Response :=
  if !(isAuthenticated st.sessions cookie) then
    (st, Response.redirectTo "/")
  else
    (st, Response.listPage (st.assets.map Prod.snd))

/-- The POST /generate request body (src/server.js line 623). -/
structure GenerateBody where
  id : Option String
  name : Option String
  location : Option String
  department : Option String
  desktopSetupDate : Option String
  assetPassword : Option String
deriving DecidableEq

/-- The record built at src/server.js lines 673-681 from the create form. -/
def mkAssetRecord (b : GenerateBody) (salt : Nat) : AssetRecord :=
  { id := b.id.getD ""
    name := b.name.getD ""
    location := b.location.getD ""
    department := jsOr b.department ""
    desktopSetupDate := jsOr b.desktopSetupDate ""
    assetPassword := bhash salt (b.assetPassword.getD "")
    scanHistory := [] }

/-- POST /generate (src/server.js lines 617-762): redirect unless
isAuthenticated; reject when a required field is missing or empty; report a
conflict (without touching the registry) when the name key already exists;
otherwise hash the secret, insert the new record and answer with the created
page (the QR rendering of the response is abstracted). -/
def generateHandler (st : ServerState) (cookie : Option String)
    (b : GenerateBody) (salt : Nat) : ServerState × Response :=
  if !(isAuthenticated st.sessions cookie) then
    (st, Response.redirectTo "/")
  else if !(jsTruthy b.id && jsTruthy b.name && jsTruthy b.location &&
            jsTruthy b.assetPassword) then
    (st, Response.invalidInputPage)
  else if mapHas st.assets (b.name.getD "") then
    (st, Response.conflictPage (b.name.getD ""))
  else
    ({ st with assets := mapSet st.assets (b.name.getD "") (mkAssetRecord b salt) },
     Response.createdPage (b.name.getD ""))

/-- POST /change-password/:id (src/server.js lines 521-614): redirect unless
isAuthenticated; 404 for an unknown id; reject a missing or empty new
password; otherwise re-hash and store. -/
def changePasswordHandler (st : ServerState) (assetId : String)
    (cookie : Option String) (newPassword : Option String) (salt : Nat) :
    ServerState × Response :=
  if !(isAuthenticated st.sessions cookie) then
    (st, Response.redirectTo "/")
  else
    match mapGet st.assets assetId with
    | none => (st, Response.notFoundPage assetId)
    | some asset =>
      if !(jsTruthy newPassword) then
        (st, Response.invalidInputPage)
      else
        let rehashed := { asset with assetPassword := bhash salt (newPassword.getD "") }
        ({ st with assets := mapSet st.assets assetId rehashed },
         Response.passwordUpdatedPage assetId)

/-- POST /login (src/server.js lines 232-261): exact string comparison against
the configured admin pair; on success a fresh admin session is stored. -/
def loginHandler (st : ServerState) (adminId adminPassword : String)
    (bodyId bodyPassword : Option String) (newToken : String) :
    ServerState × Response :=
  if bodyId == some adminId && bodyPassword == some adminPassword then
    ({ st with sessions := mapSet st.sessions newToken SessionPayload.adminAuthenticated },
     Response.redirectTo "/")
  else
    (st, Response.loginFailedPage)

/-- GET /api/asset/:id (src/server.js lines 1273-1281): no session read at all;
the stored record is serialized wholesale, assetPassword and scanHistory
included. -/
def apiAssetHandler (st : ServerState) (assetId : String)
    (cookie : Option String) : Response :=
  match mapGet st.assets assetId with
  | none => Response.apiNotFound assetId
  | some asset => Response.apiJson asset

/-- The text encoded into every per-asset QR code (src/server.js lines 296, 687,
791, 882): the detail URL with the scan-origin flag set. -/
def assetScanUrl (baseUrl : String) (a : AssetRecord) : String :=
  baseUrl ++ "/asset/" ++ a.name ++ "?scan=true"

/-- GET /qr/:id (src/server.js lines 765-853): no session read; 404 for an
unknown id, otherwise the QR page for the scan URL. -/
def qrHandler (st : ServerState) (assetId : String) (cookie : Option String)
    (baseUrl : String) : Response :=
  match mapGet st.assets assetId with
  | none => Response.notFoundPage assetId
  | some asset => Response.qrPage (assetScanUrl baseUrl asset)

/-- GET /qr/:id/download (src/server.js lines 856-892): no session read; 404
for an unknown id, otherwise the QR image for the scan URL. -/
def qrDownloadHandler (st : ServerState) (assetId : String)
    (cookie : Option String) (baseUrl : String) : Response :=
  match mapGet st.assets assetId with
  | none => Response.notFoundPage assetId
  | some asset => Response.qrImage (assetScanUrl baseUrl asset)

/-- GET /qr/all (src/server.js lines 275-372): redirect unless isAuthenticated,
otherwise the QR page for every stored record. -/
def qrAllHandler (st : ServerState) (cookie : Option String)
    (baseUrl : String) : Response :=
  if !(isAuthenticated st.sessions cookie) then
    Response.redirectTo "/"
  else
    Response.qrAllPage (st.assets.map (fun p => assetScanUrl baseUrl p.2))

/-- The generateSessionId of src/server.js lines 65-67:
Math.random().toString(36).substring(2) concatenated with
Date.now().toString(36).  The two base-36 digit strings produced by the random
draw and the clock reading are the parameters. -/
def generateSessionId (randDigits timeDigits : String) : String :=
  randDigits ++ timeDigits

/-- The scan history currently stored for an asset id. -/
def historyAt (st : ServerState) (assetId : String) : Option (List ScanEvent) :=
  (mapGet st.assets assetId).map AssetRecord.scanHistory

/-- A sample stored record used by the concrete evaluations. -/
def sampleAsset : AssetRecord :=
  { id := "Desk", name := "desk-1", location := "HQ", department := "",
    desktopSetupDate := "", assetPassword := bhash 0 "pw", scanHistory := [] }

/-- A second sample record with a different name and secret. -/
def sampleAssetB : AssetRecord :=
  { id := "Chair", name := "chair-2", location := "HQ", department := "",
    desktopSetupDate := "", assetPassword := bhash 1 "pw2", scanHistory := [] }

/-- Registry holding only sampleAsset, no sessions yet. -/
def oneAssetState : ServerState :=
  { assets := [("desk-1", sampleAsset)], sessions := [] }

/-- Two assets, and a session table holding one verification session scoped to
the first asset. -/
def crossState : ServerState :=
  { assets := [("desk-1", sampleAsset), ("chair-2", sampleAssetB)],
    sessions := [("tok", SessionPayload.assetVerified "desk-1")] }

/-- A scan-flagged detail request for the second asset that presents the
first asset's verification token under the admin cookie name. -/
def crossReq : AssetViewRequest :=
  { assetId := "chair-2", scanQuery := some "true",
    cookie := some "sessionId=tok", userAgent := some "UA", now := "T0" }

/-- One asset together with the verification session for it, as left behind by
a successful POST /asset/verify/desk-1. -/
def verifiedState : ServerState :=
  { assets := [("desk-1", sampleAsset)],
    sessions := [("tok", SessionPayload.assetVerified "desk-1")] }

/-- The scan-flagged detail request a verified scanner sends right after the
verification redirect, carrying the asset session cookie. -/
def scanReq : AssetViewRequest :=
  { assetId := "desk-1", scanQuery := some "true",
    cookie := some "assetSessionId=tok", userAgent := some "UA", now := "T1" }

/-- One asset and one administrator session. -/
def adminState : ServerState :=
  { assets := [("desk-1", sampleAsset)],
    sessions := [("atok", SessionPayload.adminAuthenticated)] }

/-- A complete create form for a fresh asset name. -/
def newAssetBody : GenerateBody :=
  { id := some "Desk2", name := some "desk-9", location := some "HQ",
    department := none, desktopSetupDate := none, assetPassword := some "pw9" }

theorem mapGet_set_self {α : Type} (m : List (String × α)) (k : String) (v : α) :
    mapGet (mapSet m k v) k = some v := by
  induction m with
  | nil => simp [mapSet, mapGet]
  | cons p rest ih =>
    obtain ⟨k', v'⟩ := p
    by_cases hk : k' = k
    · simp [mapSet, mapGet, hk]
    · simp [mapSet, mapGet, hk, ih]

theorem mapLength_set_new {α : Type} (m : List (String × α)) (k : String)
    (v : α) (h : mapHas m k = false) :
    (mapSet m k v).length = m.length + 1 := by
  induction m with
  | nil => simp [mapSet]
  | cons p rest ih =>
    obtain ⟨k', v'⟩ := p
    simp only [mapHas, Bool.or_eq_false_iff, beq_eq_false_iff_ne] at h
    simp [mapSet, h.1, ih h.2]

/-- Helper: complete branch characterization of GET /asset/:id for an existing
asset, phrased with the positive gate condition. -/
theorem assetDetail_characterization (st : ServerState) (req : AssetViewRequest)
    (a : AssetRecord) (h : mapGet st.assets req.assetId = some a) :
    assetDetailHandler st req =
      (if ((req.scanQuery == some "true") &&
            (isAuthenticated st.sessions req.cookie ||
             isVerifiedFor st.sessions req.cookie req.assetId)) then
        ({ st with assets := mapSet st.assets req.assetId (recordScan a (mkScanEvent req)) },
         Response.detailPage (recordScan a (mkScanEvent req)))
       else if (req.scanQuery == some "true") then
        (st, Response.challengePage req.assetId)
       else
        (st, Response.detailPage a)) := by
  cases hs : (req.scanQuery == some "true") <;>
    cases h1 : isAuthenticated st.sessions req.cookie <;>
      cases h2 : isVerifiedFor st.sessions req.cookie req.assetId <;>
        simp [assetDetailHandler, h, hs, h1, h2]

/-- Claim C1: the claim states that every registry-mutating operation is denied
(with a redirect to the login surface and the registry unchanged) unless the
credential resolves to an AdminSession.  The code violates this: the single
sessions Map holds both session kinds and isAuthenticated only tests key
membership, so the AssetVerifiedSession token minted by a successful secret
verification, replayed under the admin cookie name, deletes the asset and is
served the admin listing. -/
theorem delete_allows_asset_scoped_session :
    (verifyHandler oneAssetState "desk-1" (some "pw") "tok").1.sessions =
      [("tok", SessionPayload.assetVerified "desk-1")] ∧
    deleteHandler (verifyHandler oneAssetState "desk-1" (some "pw") "tok").1
        "desk-1" (some "sessionId=tok") =
      ({ assets := [], sessions := [("tok", SessionPayload.assetVerified "desk-1")] },
       Response.redirectTo "/list") ∧
    listHandler (verifyHandler oneAssetState "desk-1" (some "pw") "tok").1
        (some "sessionId=tok") =
      ((verifyHandler oneAssetState "desk-1" (some "pw") "tok").1,
       Response.listPage [sampleAsset]) := by
  decide

/-- Claim C2: the claim states that an AssetVerifiedSession scoped to asset A,
presented for the detail view of a different asset B under either cookie name,
is treated as Anonymous and (with the scan flag) challenged for B's secret.
The code violates this under the admin cookie name: the A-scoped token passes
isAuthenticated, so the request is treated as an administrator, B's detail page
is rendered and a scan event is appended instead of a challenge. -/
theorem cross_asset_token_grants_admin_view :
    isAuthenticated crossState.sessions crossReq.cookie = true ∧
    isVerifiedFor crossState.sessions crossReq.cookie "chair-2" = false ∧
    assetDetailHandler crossState crossReq =
      ({ assets := [("desk-1", sampleAsset),
                    ("chair-2", recordScan sampleAssetB { timestamp := "T0", device := "UA" })],
         sessions := crossState.sessions },
       Response.detailPage (recordScan sampleAssetB { timestamp := "T0", device := "UA" })) := by
  decide

/-- Claim C3: GET /api/asset/:name returns the full stored AssetRecord —
assetPassword digest and complete scanHistory included — for every existing
asset, with no access check: the response is the same whatever credential
carrier is presented. -/
theorem api_asset_returns_full_record_unconditionally (st : ServerState)
    (assetId : String) (a : AssetRecord) (c c' : Option String)
    (h : mapGet st.assets assetId = some a) :
    apiAssetHandler st assetId c = Response.apiJson a ∧
    apiAssetHandler st assetId c = apiAssetHandler st assetId c' := by
  simp [apiAssetHandler, h]

/-- Witness for claim C3 at a concrete registry and two concrete carriers. -/
theorem api_asset_full_record_witness :
    mapGet oneAssetState.assets "desk-1" = some sampleAsset ∧
    (apiAssetHandler oneAssetState "desk-1" none = Response.apiJson sampleAsset ∧
     apiAssetHandler oneAssetState "desk-1" none =
       apiAssetHandler oneAssetState "desk-1" (some "sessionId=tok")) :=
  ⟨by decide,
   api_asset_returns_full_record_unconditionally oneAssetState "desk-1" sampleAsset
     none (some "sessionId=tok") (by decide)⟩

/-- Claim C4: for an existing asset, exactly one ScanEvent is appended to its
history exactly when the detail view carries the scan-origin flag and the gate
(as implemented: isAuthenticated or the matching asset-verified check) passes;
in every other case — no flag, or a rendered challenge — the state is
unchanged; and a verification submission (successful or failed) never touches
the registry or any history. -/
theorem scan_event_appended_iff_flag_and_gate (st : ServerState)
    (req : AssetViewRequest) (a : AssetRecord)
    (h : mapGet st.assets req.assetId = some a) :
    (((req.scanQuery == some "true") &&
        (isAuthenticated st.sessions req.cookie ||
         isVerifiedFor st.sessions req.cookie req.assetId)) = true →
      historyAt (assetDetailHandler st req).1 req.assetId =
          some (a.scanHistory ++ [mkScanEvent req]) ∧
      (assetDetailHandler st req).2 = Response.detailPage (recordScan a (mkScanEvent req))) ∧
    (((req.scanQuery == some "true") &&
        (isAuthenticated st.sessions req.cookie ||
         isVerifiedFor st.sessions req.cookie req.assetId)) = false →
      (assetDetailHandler st req).1 = st) ∧
    (∀ pw : Option String, ∀ tok : String,
      ((verifyHandler st req.assetId pw tok).1).assets = st.assets) := by
  have hch := assetDetail_characterization st req a h
  refine ⟨?_, ?_, ?_⟩
  · intro hc
    rw [hch]
    simp [hc, historyAt, mapGet_set_self, recordScan]
  · intro hc
    rw [hch]
    simp only [hc]
    cases hs : (req.scanQuery == some "true") <;> simp
  · intro pw tok
    cases pw with
    | none => simp [verifyHandler, h, bcryptCompare]
    | some p =>
      cases hb : bverify p a.assetPassword <;>
        simp [verifyHandler, h, bcryptCompare, hb]

/-- Witness for claim C4: a scanner arriving fresh from a successful secret
verification (asset session cookie set, scan flag set) gets exactly one event
appended. -/
theorem scan_event_witness :
    mapGet verifiedState.assets scanReq.assetId = some sampleAsset ∧
    ((scanReq.scanQuery == some "true") &&
      (isAuthenticated verifiedState.sessions scanReq.cookie ||
       isVerifiedFor verifiedState.sessions scanReq.cookie scanReq.assetId)) = true ∧
    historyAt (assetDetailHandler verifiedState scanReq).1 scanReq.assetId =
      some (sampleAsset.scanHistory ++ [mkScanEvent scanReq]) :=
  ⟨by decide, by decide,
   (((scan_event_appended_iff_flag_and_gate verifiedState scanReq sampleAsset
       (by decide)).1) (by decide)).1⟩

/-- Claim C5: an authenticated create with a name already present reports a
conflict and changes nothing (record, secret digest and registry size all kept);
with a fresh name it inserts a record with empty scan history and the hashed
secret, growing the registry by one entry and leaving every other name's
binding unchanged. -/
theorem create_conflict_or_insert (st : ServerState) (cookie : Option String)
    (b : GenerateBody) (salt : Nat)
    (hauth : isAuthenticated st.sessions cookie = true)
    (hfields : (jsTruthy b.id && jsTruthy b.name && jsTruthy b.location &&
                jsTruthy b.assetPassword) = true) :
    (mapHas st.assets (b.name.getD "") = true →
        generateHandler st cookie b salt =
          (st, Response.conflictPage (b.name.getD ""))) ∧
    (mapHas st.assets (b.name.getD "") = false →
        generateHandler st cookie b salt =
          ({ st with assets := mapSet st.assets (b.name.getD "") (mkAssetRecord b salt) },
           Response.createdPage (b.name.getD "")) ∧
        mapGet (generateHandler st cookie b salt).1.assets (b.name.getD "") =
          some (mkAssetRecord b salt) ∧
        (generateHandler st cookie b salt).1.assets.length = st.assets.length + 1) ∧
    (mkAssetRecord b salt).scanHistory = [] ∧
    (mkAssetRecord b salt).assetPassword = bhash salt (b.assetPassword.getD "") := by
  refine ⟨?_, ?_, rfl, rfl⟩
  · intro hdup
    simp [generateHandler, hauth, hfields, hdup]
  · intro hnew
    refine ⟨by simp [generateHandler, hauth, hfields, hnew], ?_, ?_⟩
    · simp [generateHandler, hauth, hfields, hnew, mapGet_set_self]
    · simp [generateHandler, hauth, hfields, hnew, mapLength_set_new _ _ _ hnew]

/-- Witness for claim C5: an administrator session creating a fresh name. -/
theorem create_conflict_or_insert_witness :
    isAuthenticated adminState.sessions (some "sessionId=atok") = true ∧
    (jsTruthy newAssetBody.id && jsTruthy newAssetBody.name &&
     jsTruthy newAssetBody.location && jsTruthy newAssetBody.assetPassword) = true ∧
    ((mapHas adminState.assets (newAssetBody.name.getD "") = true →
        generateHandler adminState (some "sessionId=atok") newAssetBody 2 =
          (adminState, Response.conflictPage (newAssetBody.name.getD ""))) ∧
     (mapHas adminState.assets (newAssetBody.name.getD "") = false →
        generateHandler adminState (some "sessionId=atok") newAssetBody 2 =
          ({ adminState with assets := mapSet adminState.assets (newAssetBody.name.getD "") (mkAssetRecord newAssetBody 2) },
           Response.createdPage (newAssetBody.name.getD "")) ∧
        mapGet (generateHandler adminState (some "sessionId=atok") newAssetBody 2).1.assets
            (newAssetBody.name.getD "") = some (mkAssetRecord newAssetBody 2) ∧
        (generateHandler adminState (some "sessionId=atok") newAssetBody 2).1.assets.length =
          adminState.assets.length + 1) ∧
     (mkAssetRecord newAssetBody 2).scanHistory = [] ∧
     (mkAssetRecord newAssetBody 2).assetPassword =
       bhash 2 (newAssetBody.assetPassword.getD "")) :=
  ⟨by decide, by decide,
   create_conflict_or_insert adminState (some "sessionId=atok") newAssetBody 2
     (by decide) (by decide)⟩

/-- Claim C6: the claim states that a verification submission with a missing
password field is rejected as InvalidInput with an error response.  The code
has no such check: the missing value reaches bcrypt.compare, the library
rejects it, and the async handler produces no response at all (the state is
indeed left unchanged, but no InvalidInput error page exists on this path). -/
theorem verify_missing_password_unhandled :
    verifyHandler oneAssetState "desk-1" none "tok" =
      (oneAssetState, Response.unhandledRejection) := by
  decide

/-- Claim C7: verify(s, hash(s)) is true for every secret; verify(s, hash(t))
is false whenever s and t differ (whatever salts were drawn); and verify on a
malformed digest returns false instead of throwing. -/
theorem verify_roundtrip_mismatch_malformed (s t raw : String)
    (salt salt₂ : Nat) (hne : s ≠ t) :
    bverify s (bhash salt s) = true ∧
    bverify s (bhash salt₂ t) = false ∧
    bverify s (Digest.malformed raw) = false := by
  refine ⟨?_, ?_, rfl⟩
  · simp [bverify, bhash]
  · simp [bverify, bhash, hne]

/-- Witness for claim C7 at concrete secrets, salts and a malformed digest. -/
theorem verify_contract_witness :
    ("pw" : String) ≠ "other" ∧
    (bverify "pw" (bhash 0 "pw") = true ∧
     bverify "pw" (bhash 1 "other") = false ∧
     bverify "pw" (Digest.malformed "zz") = false) :=
  ⟨by decide, verify_roundtrip_mismatch_malformed "pw" "other" "zz" 0 1 (by decide)⟩

/-- Claim C8 counterexample: the claim states that any two token-generation
calls yield distinct tokens by construction.  The construction is a bare string
concatenation of the random base-36 digits and the base-36 time, and two calls
with different draw and time values can collide. -/
theorem session_tokens_can_collide_cex :
    generateSessionId "a" "bc" = generateSessionId "ab" "c" ∧
    (("a", "bc") : String × String) ≠ ("ab", "c") := by
  decide

/-- Claim C8 as amended: a session token is exactly the concatenation of the
random draw's base-36 digits and the base-36 clock reading; two calls collide
precisely when those concatenations coincide, and such collisions exist, so
distinctness of tokens is not guaranteed by construction. -/
theorem session_token_shape_and_collision :
    (∀ r₁ t₁ r₂ t₂ : String,
        generateSessionId r₁ t₁ = generateSessionId r₂ t₂ ↔ r₁ ++ t₁ = r₂ ++ t₂) ∧
    ∃ r₁ t₁ r₂ t₂ : String, (r₁, t₁) ≠ (r₂, t₂) ∧
        generateSessionId r₁ t₁ = generateSessionId r₂ t₂ :=
  ⟨fun _ _ _ _ => Iff.rfl, "x", "yz", "xy", "z", by decide, rfl⟩

/-- Claim C9: a detail request for an existing asset without the scan-origin
flag succeeds in every request state — any cookie whatsoever — with no secret
challenge, and leaves the whole state (in particular the scan history)
unchanged. -/
theorem view_without_scan_flag_allowed_all_states (st : ServerState)
    (req : AssetViewRequest) (a : AssetRecord)
    (h : mapGet st.assets req.assetId = some a)
    (hflag : (req.scanQuery == some "true") = false) :
    assetDetailHandler st req = (st, Response.detailPage a) := by
  simp [assetDetailHandler, h, hflag]

/-- Witness for claim C9: an anonymous request with no scan flag. -/
theorem view_without_flag_witness :
    mapGet oneAssetState.assets "desk-1" = some sampleAsset ∧
    ((({ assetId := "desk-1", scanQuery := none, cookie := none,
         userAgent := none, now := "T0" } : AssetViewRequest).scanQuery ==
       some "true") = false) ∧
    assetDetailHandler oneAssetState
        { assetId := "desk-1", scanQuery := none, cookie := none,
          userAgent := none, now := "T0" } =
      (oneAssetState, Response.detailPage sampleAsset) :=
  ⟨by decide, by decide,
   view_without_scan_flag_allowed_all_states oneAssetState
     { assetId := "desk-1", scanQuery := none, cookie := none,
       userAgent := none, now := "T0" } sampleAsset (by decide) (by decide)⟩

/-- Claim C10: GET /qr/:name and GET /qr/:name/download read no session at all:
every caller, the anonymous one included, receives the QR encoding of the
detail URL with the scan-origin flag set, and the response never depends on the
credential carrier — while the sibling GET /qr/all denies a caller with no
session evidence. -/
theorem qr_routes_skip_authentication (st : ServerState)
    (assetId baseUrl : String) (a : AssetRecord) (c c' : Option String)
    (h : mapGet st.assets assetId = some a) :
    qrHandler st assetId c baseUrl = Response.qrPage (assetScanUrl baseUrl a) ∧
    qrDownloadHandler st assetId c baseUrl = Response.qrImage (assetScanUrl baseUrl a) ∧
    qrHandler st assetId c baseUrl = qrHandler st assetId c' baseUrl ∧
    qrDownloadHandler st assetId c baseUrl = qrDownloadHandler st assetId c' baseUrl ∧
    qrAllHandler st none baseUrl = Response.redirectTo "/" := by
  simp [qrHandler, qrDownloadHandler, qrAllHandler, h, isAuthenticated, cookieToken]

/-- Witness for claim C10: an anonymous caller on a concrete registry. -/
theorem qr_routes_witness :
    mapGet oneAssetState.assets "desk-1" = some sampleAsset ∧
    (qrHandler oneAssetState "desk-1" none "http://h" =
       Response.qrPage (assetScanUrl "http://h" sampleAsset) ∧
     qrDownloadHandler oneAssetState "desk-1" none "http://h" =
       Response.qrImage (assetScanUrl "http://h" sampleAsset) ∧
     qrHandler oneAssetState "desk-1" none "http://h" =
       qrHandler oneAssetState "desk-1" (some "sessionId=tok") "http://h" ∧
     qrDownloadHandler oneAssetState "desk-1" none "http://h" =
       qrDownloadHandler oneAssetState "desk-1" (some "sessionId=tok") "http://h" ∧
     qrAllHandler oneAssetState none "http://h" = Response.redirectTo "/") :=
  ⟨by decide,
   qr_routes_skip_authentication oneAssetState "desk-1" "http://h" sampleAsset
     none (some "sessionId=tok") (by decide)⟩
